import Mathlib

/-!
Shallow embedding of the quiz-submission backend (`src/backend/server.js`).
The file holds two concatenated revisions of the same Express server
("variant 1" and "variant 2"); both are embedded.  JavaScript payload
fields are modelled as `Option String` (`none` = absent), the Mongo-backed
store as a list of records plus operation counters, and the server clock
as an explicit `now : Nat` argument.
-/

/-- JS `String.prototype.trim()`: drop leading and trailing whitespace.
(Kept executable so concrete runs reduce by `decide`.) -/
def jsTrim (s : String) : String :=
  String.mk (((s.data.dropWhile Char.isWhitespace).reverse.dropWhile
    Char.isWhitespace).reverse)

/-- Lower-case a single character, ASCII range, as JS `toLowerCase` does on
the inputs occurring here. -/
def jsToLowerChar (c : Char) : Char :=
  if 'A' ≤ c ∧ c ≤ 'Z' then Char.ofNat (c.toNat + 32) else c

/-- JS `String.prototype.toLowerCase()` restricted to ASCII case mapping. -/
def jsToLower (s : String) : String :=
  String.mk (s.data.map jsToLowerChar)

/-- JS `parseInt(s)` (radix 10, as used at `parseInt(score)`): skip leading
whitespace, read an optional sign and then leading decimal digits; `none`
stands for `NaN` (no digits).  The automatic `0x` radix-16 detection of
`parseInt` is outside the inputs this server ever normalises and is not
modelled. -/
def jsParseInt (s : String) : Option Int :=
  let cs := s.data.dropWhile Char.isWhitespace
  let signed : Int × List Char :=
    match cs with
    | '-' :: r => (-1, r)
    | '+' :: r => (1, r)
    | r => (1, r)
  let ds := signed.2.takeWhile Char.isDigit
  if ds.isEmpty then none
  else some (signed.1 * (ds.foldl (fun a c => a * 10 + (c.toNat - 48)) 0 : Nat))

/-- The coercion `parseInt(score) || 0` applied to an optional payload value:
an absent value or an unparsable string silently becomes `0` (`NaN || 0`),
and a parsed `0` stays `0` (`0 || 0`). -/
def jsScore (v : Option String) : Int :=
  match v with
  | none => 0
  | some s =>
    match jsParseInt s with
    | none => 0
    | some n => n

/-- An incoming JSON body for `POST /api/users`.  The handler destructures
exactly `name, email, phone, school, language, answers, score`; any other
property of the body is kept here (`clientSubmittedAt`, `clientId`,
`extra`) so that theorems can state that the handler never reads them. -/
structure Payload where
  name : Option String := none
  email : Option String := none
  phone : Option String := none
  school : Option String := none
  language : Option String := none
  answers : Option (List String) := none
  score : Option String := none
  clientSubmittedAt : Option String := none
  clientId : Option String := none
  extra : List (String × String) := []
deriving DecidableEq

/-- A persisted user document (`userSchema` plus the Mongo-assigned `_id`,
modelled as a `Nat`); `submittedAt` is a server timestamp modelled as `Nat`. -/
structure UserRecord where
  id : Nat
  name : String
  email : String
  phone : String
  school : String
  language : String
  answers : List String
  score : Int
  submittedAt : Nat
deriving DecidableEq

/-- The document handed to `new User({...})` before the store assigns `_id`. -/
structure UserDraft where
  name : String
  email : String
  phone : String
  school : String
  language : String
  answers : List String
  score : Int
  submittedAt : Nat
deriving DecidableEq

/-- The backing store: persisted records plus counters of the store
operations actually performed (used to state "no store call happened"). -/
structure Store where
  records : List UserRecord
  insertCalls : Nat
  findCalls : Nat
deriving DecidableEq

def Store.empty : Store := ⟨[], 0, 0⟩

/-- The `required: true` check of `userSchema` on the five string fields:
mongoose rejects a missing or empty string before any database write. -/
def mongooseValid (d : UserDraft) : Bool :=
  !(d.name == "") && !(d.email == "") && !(d.phone == "") &&
    !(d.school == "") && !(d.language == "")

/-- Names of the draft fields failing `userSchema`'s `required` check. -/
def schemaFailures (d : UserDraft) : List String :=
  (([("name", d.name), ("email", d.email), ("phone", d.phone),
    ("school", d.school), ("language", d.language)].filter
      (fun kv => kv.2 == "")).map Prod.fst)

/-- Outcome of `newUser.save()`: either the persisted record, or mongoose's
`ValidationError` raised before any database operation. -/
inductive SaveOutcome where
  | ok (r : UserRecord)
  | validationError (failedFields : List String)
deriving DecidableEq

/-- The persisted document: the draft plus the store-assigned `_id`. -/
def UserDraft.withId (d : UserDraft) (assigned : Nat) : UserRecord :=
  { id := assigned, name := d.name, email := d.email, phone := d.phone,
    school := d.school, language := d.language, answers := d.answers,
    score := d.score, submittedAt := d.submittedAt }

/-- `newUser.save()`: schema validation first (no store call on failure),
then the insert, which assigns `_id` and appends the document. -/
def Store.trySave (s : Store) (d : UserDraft) : SaveOutcome × Store :=
  if mongooseValid d then
    let r := d.withId s.records.length
    (.ok r, ⟨s.records ++ [r], s.insertCalls + 1, s.findCalls⟩)
  else
    (.validationError (schemaFailures d), s)

/-- Descending order on `submittedAt` — the sort `.sort({ submittedAt: -1 })`
used by both list endpoints. -/
def bySubmittedAtDesc (a b : UserRecord) : Prop := b.submittedAt ≤ a.submittedAt

instance : DecidableRel bySubmittedAtDesc :=
  fun a b => Nat.decLe b.submittedAt a.submittedAt

instance : IsTotal UserRecord bySubmittedAtDesc :=
  ⟨fun a b => Nat.le_total b.submittedAt a.submittedAt⟩

instance : IsTrans UserRecord bySubmittedAtDesc :=
  ⟨fun _ _ _ h1 h2 => Nat.le_trans h2 h1⟩

/-- `User.find({}).sort({ submittedAt: -1 })`: every record, most recent
first, no filtering and no pagination; counts one find call.  (Variant 1's
extra `.select('-__v')` only drops the mongoose version key, which is not
part of `UserRecord`.) -/
def Store.findAllSorted (s : Store) : List UserRecord × Store :=
  (s.records.insertionSort bySubmittedAtDesc,
    ⟨s.records, s.insertCalls, s.findCalls + 1⟩)

/-- The JS test `!value || !value.toString().trim()` on an optional string:
absent, empty, or whitespace-only (trims to empty) counts as missing. -/
def isMissingValue : Option String → Bool
  | none => true
  | some s => jsTrim s == ""

/-- Variant 1's `requiredFields` object, in source order. -/
def requiredEntries (p : Payload) : List (String × Option String) :=
  [("name", p.name), ("email", p.email), ("phone", p.phone),
    ("school", p.school), ("language", p.language)]

/-- Variant 1's `missingFields`: names of required entries whose value is
absent or whitespace-only. -/
def missingFields (p : Payload) : List String :=
  ((requiredEntries p).filter (fun kv => isMissingValue kv.2)).map Prod.fst

/-- The `required` array reported in the 400 bodies. -/
def requiredFieldNames : List String :=
  ["name", "email", "phone", "school", "language"]

/-- The JS truthiness test `!value` on an optional string: only absence and
the empty string are falsy — a whitespace-only string passes. -/
def jsFalsyStr : Option String → Bool
  | none => true
  | some s => s == ""

/-- Variant 2's validation `!name || !email || !phone || !school || !language`. -/
def anyRequiredFalsy (p : Payload) : Bool :=
  jsFalsyStr p.name || jsFalsyStr p.email || jsFalsyStr p.phone ||
    jsFalsyStr p.school || jsFalsyStr p.language

/-- Variant 1's `new User({...})` argument: trim every string field,
lower-case the email, coerce the score, default answers to `[]`, and set
`submittedAt: new Date()` from the server clock. -/
def mkDraft (p : Payload) (now : Nat) : UserDraft :=
  { name := jsTrim (p.name.getD "")
    email := jsToLower (jsTrim (p.email.getD ""))
    phone := jsTrim (p.phone.getD "")
    school := jsTrim (p.school.getD "")
    language := jsTrim (p.language.getD "")
    answers := p.answers.getD []
    score := jsScore p.score
    submittedAt := now }

/-- Variant 2's `new User({...})` argument: same normalisation, but the
object literal has no `submittedAt`; the schema default `Date.now` supplies
the same server clock at save time. -/
def mkDraftV2 (p : Payload) (now : Nat) : UserDraft :=
  { name := jsTrim (p.name.getD "")
    email := jsToLower (jsTrim (p.email.getD ""))
    phone := jsTrim (p.phone.getD "")
    school := jsTrim (p.school.getD "")
    language := jsTrim (p.language.getD "")
    answers := p.answers.getD []
    score := jsScore p.score
    submittedAt := now }

/-- Response of `POST /api/users`, across both variants. -/
inductive SubmitResponse where
  /-- 503 `Database not connected`. -/
  | dbUnavailable
  /-- Variant 1's 400 `Missing required fields` with `required` and `missing`. -/
  | validationFailed (required missing : List String)
  /-- Variant 2's 400 `Missing required fields` with `required` only. -/
  | validationFailedNoList (required : List String)
  /-- Variant 1's 400 `Validation failed` catch branch for a mongoose
  `ValidationError` out of `save()`. -/
  | mongooseValidationFailed (errors : List String)
  /-- Variant 2's catch-all 500 on any `save()` error. -/
  | saveError (message : String)
  /-- 201 `Quiz submitted successfully!` with `userId` and `score`. -/
  | created (userId : Nat) (score : Int)
deriving DecidableEq

def SubmitResponse.status : SubmitResponse → Nat
  | .dbUnavailable => 503
  | .validationFailed _ _ => 400
  | .validationFailedNoList _ => 400
  | .mongooseValidationFailed _ => 400
  | .saveError _ => 500
  | .created _ _ => 201

/-- The `missing` array of the response body, when the body has one. -/
def SubmitResponse.missingList : SubmitResponse → Option (List String)
  | .validationFailed _ m => some m
  | _ => none

/-- Variant 1's `POST /api/users` handler: connection check, exact
missing-field validation, then `save()`. -/
def postUsersV1 (readyState : Nat) (p : Payload) (now : Nat) (s : Store) :
    SubmitResponse × Store :=
  if readyState ≠ 1 then (.dbUnavailable, s)
  else if 0 < (missingFields p).length then
    (.validationFailed requiredFieldNames (missingFields p), s)
  else
    match s.trySave (mkDraft p now) with
    | (.ok r, s2) => (.created r.id r.score, s2)
    | (.validationError errs, s2) => (.mongooseValidationFailed errs, s2)

/-- Variant 2's `POST /api/users` handler: connection check, truthiness-only
validation (no `missing` list), then `save()` with a catch-all 500. -/
def postUsersV2 (readyState : Nat) (p : Payload) (now : Nat) (s : Store) :
    SubmitResponse × Store :=
  if readyState ≠ 1 then (.dbUnavailable, s)
  else if anyRequiredFalsy p then
    (.validationFailedNoList requiredFieldNames, s)
  else
    match s.trySave (mkDraftV2 p now) with
    | (.ok r, s2) => (.created r.id r.score, s2)
    | (.validationError _, s2) => (.saveError "Error saving user data", s2)

/-- Response of `GET /api/users` and `GET /api/admin/users`. -/
inductive ListResponse where
  /-- 503 `Database not connected`. -/
  | dbUnavailable
  /-- 200 with `count` and the sorted `users` array. -/
  | ok (count : Nat) (users : List UserRecord)
deriving DecidableEq

def ListResponse.status : ListResponse → Nat
  | .dbUnavailable => 503
  | .ok _ _ => 200

def ListResponse.users : ListResponse → List UserRecord
  | .dbUnavailable => []
  | .ok _ us => us

/-- `GET /api/users` (identical logic in both variants): connection check,
then `find({}).sort({ submittedAt: -1 })` wrapped with a count. -/
def getUsersHandler (readyState : Nat) (s : Store) : ListResponse × Store :=
  if readyState ≠ 1 then (.dbUnavailable, s)
  else
    let f := s.findAllSorted
    (.ok f.1.length f.1, f.2)

/-- `GET /api/admin/users`: same contract as the list endpoint (both
variants differ from it only in logging). -/
def getAdminUsersHandler (readyState : Nat) (s : Store) :
    ListResponse × Store :=
  if readyState ≠ 1 then (.dbUnavailable, s)
  else
    let f := s.findAllSorted
    (.ok f.1.length f.1, f.2)

/-- What the environment makes of a `connectDB` attempt: no
`MONGODB_URI` configured, `mongoose.connect` failing (auth / network /
timeout), or success. -/
inductive ConnectEnv where
  | missingUri
  | connectFailure
  | connectSuccess
deriving DecidableEq

/-- The errors that can travel through `connectDB`'s try/catch. -/
inductive JsError where
  | configError (msg : String)
  | connectionError
deriving DecidableEq

/-- Overall outcome of one `connectDB()` call.  `raised` — an error
escaping the function — is stated so theorems can say it never happens. -/
inductive ConnectOutcome where
  | connected
  | retryScheduled (delayMs : Nat)
  | raised (e : JsError)
deriving DecidableEq

/-- The try block of variant 1's `connectDB`: `throw new Error('MONGODB_URI
environment variable is not set')` when the URI is absent, otherwise the
`mongoose.connect` call. -/
def connectTryBodyV1 : ConnectEnv → Except JsError Unit
  | .missingUri =>
    .error (.configError "MONGODB_URI environment variable is not set")
  | .connectFailure => .error .connectionError
  | .connectSuccess => .ok ()

/-- The try block of variant 2's `connectDB` (message differs; it also
disconnects first when already connected, which does not change the
outcome partition). -/
def connectTryBodyV2 : ConnectEnv → Except JsError Unit
  | .missingUri =>
    .error (.configError "MONGODB_URI environment variable is required")
  | .connectFailure => .error .connectionError
  | .connectSuccess => .ok ()

/-- Variant 1's `connectDB`: every error — the missing-URI throw included —
lands in the same catch, which logs and runs `setTimeout(connectDB, 5000)`. -/
def connectDBv1 (env : ConnectEnv) : ConnectOutcome :=
  match connectTryBodyV1 env with
  | .ok _ => .connected
  | .error _ => .retryScheduled 5000

/-- Variant 2's `connectDB`: same shape, catch logs a categorised hint and
runs `setTimeout(connectDB, 15000)`. -/
def connectDBv2 (env : ConnectEnv) : ConnectOutcome :=
  match connectTryBodyV2 env with
  | .ok _ => .connected
  | .error _ => .retryScheduled 15000

/-- Modelled from the spec: Profile B's required-field set (`name, phone,
language`); no revision in `src/` implements Profile B — both observed
handlers are Profile A — so the validator is taken from §4.2 of the spec. -/
def requiredEntriesB (p : Payload) : List (String × Option String) :=
  [("name", p.name), ("phone", p.phone), ("language", p.language)]

/-- Modelled from the spec: Profile B's missing-field computation — a
required field must be present and non-empty after trimming. -/
def missingFieldsB (p : Payload) : List String :=
  ((requiredEntriesB p).filter (fun kv => isMissingValue kv.2)).map Prod.fst

/-- Modelled from the spec: Profile B's normalised draft — trim all string
fields, lower-case the email when present, optional `email`/`school`
default to the empty string, `answers` defaults to `[]`, numeric coercion
as in §4.2.  (The optional `class` field of the spec's superset schema is
not part of the observed document shape and is not modelled.) -/
def mkDraftB (p : Payload) (now : Nat) : UserDraft :=
  { name := jsTrim (p.name.getD "")
    email := jsToLower (jsTrim (p.email.getD ""))
    phone := jsTrim (p.phone.getD "")
    school := jsTrim (p.school.getD "")
    language := jsTrim (p.language.getD "")
    answers := p.answers.getD []
    score := jsScore p.score
    submittedAt := now }

/-- Modelled from the spec: the Profile B submit response — 201 carries
`userId` and a `data` summary including `name` (§8's end-to-end scenario). -/
inductive SubmitResponseB where
  | dbUnavailable
  | validationFailed (missing : List String)
  | created (userId : Nat) (data : UserRecord)
deriving DecidableEq

def SubmitResponseB.status : SubmitResponseB → Nat
  | .dbUnavailable => 503
  | .validationFailed _ => 400
  | .created _ _ => 201

/-- Modelled from the spec: the submit operation under Profile B —
connection check, Profile B validation, then insert (the store's
`required` constraint is the profile's own required set, which validation
already guarantees, so the insert is direct). -/
def postUsersProfileB (readyState : Nat) (p : Payload) (now : Nat)
    (s : Store) : SubmitResponseB × Store :=
  if readyState ≠ 1 then (.dbUnavailable, s)
  else if 0 < (missingFieldsB p).length then
    (.validationFailed (missingFieldsB p), s)
  else
    let r := (mkDraftB p now).withId s.records.length
    (.created r.id r, ⟨s.records ++ [r], s.insertCalls + 1, s.findCalls⟩)

/-! Helper lemmas shared by the claim theorems. -/

theorem isMissingValue_true_iff (v : Option String) :
    isMissingValue v = true ↔ v = none ∨ ∃ str, v = some str ∧ jsTrim str = "" := by
  cases v <;> simp [isMissingValue]

theorem isMissingValue_false_some {v : Option String}
    (h : isMissingValue v = false) :
    ∃ str, v = some str ∧ (jsTrim str == "") = false := by
  cases v with
  | none => simp [isMissingValue] at h
  | some str => exact ⟨str, rfl, by simpa [isMissingValue] using h⟩

theorem missingFields_nil_iff (p : Payload) :
    missingFields p = [] ↔
      isMissingValue p.name = false ∧ isMissingValue p.email = false ∧
      isMissingValue p.phone = false ∧ isMissingValue p.school = false ∧
      isMissingValue p.language = false := by
  cases h1 : isMissingValue p.name <;> cases h2 : isMissingValue p.email <;>
    cases h3 : isMissingValue p.phone <;> cases h4 : isMissingValue p.school <;>
    cases h5 : isMissingValue p.language <;>
  simp [missingFields, requiredEntries, List.filter, h1, h2, h3, h4, h5]

theorem jsToLower_empty_iff (s : String) : jsToLower s = "" ↔ s = "" := by
  cases s with
  | mk data => cases data <;> simp [jsToLower, String.ext_iff]

/-- On a payload that passes variant 1's validation, `save()` succeeds and
the handler returns 201 with the normalised record appended. -/
theorem postUsersV1_valid (p : Payload) (now : Nat) (s : Store)
    (hv : missingFields p = []) :
    postUsersV1 1 p now s =
      (SubmitResponse.created s.records.length (jsScore p.score),
       Store.mk (s.records ++ [(mkDraft p now).withId s.records.length])
         (s.insertCalls + 1) s.findCalls) := by
  have h5 := (missingFields_nil_iff p).1 hv
  obtain ⟨nm, hn, hn2⟩ := isMissingValue_false_some h5.1
  obtain ⟨em, he, he2⟩ := isMissingValue_false_some h5.2.1
  obtain ⟨ph, hp, hp2⟩ := isMissingValue_false_some h5.2.2.1
  obtain ⟨sc, hs, hs2⟩ := isMissingValue_false_some h5.2.2.2.1
  obtain ⟨lg, hl, hl2⟩ := isMissingValue_false_some h5.2.2.2.2
  have hemail : (jsToLower (jsTrim em) == "") = false :=
    beq_eq_false_iff_ne.2
      (fun hh => (beq_eq_false_iff_ne.1 he2) ((jsToLower_empty_iff (jsTrim em)).1 hh))
  have hmv : mongooseValid (mkDraft p now) = true := by
    simp [mongooseValid, mkDraft, hn, he, hp, hs, hl, hn2, hp2, hs2, hl2, hemail]
  simp [postUsersV1, hv, Store.trySave, hmv, UserDraft.withId]
  rfl

/-! Claim theorems. -/

/-- Payload with a whitespace-only `name` — missing under the spec's rule. -/
def wsNamePayload : Payload :=
  { name := some " ", email := some "a@b.c", phone := some "1",
    school := some "S", language := some "L" }

/-- Payload with `name` absent entirely. -/
def noNamePayload : Payload :=
  { name := none, email := some "a@b.c", phone := some "1",
    school := some "S", language := some "L" }

/-- C1 counterexample: variant 2's submit handler violates the claim.  With a
whitespace-only `name` (which the claim counts as missing) it does not
return a 400 with a missing list at all — validation passes, `save()` is
reached, and the response is a 500; with `name` absent its 400 body carries
no missing-field list. -/
theorem c1_v2_no_missing_list :
    missingFields wsNamePayload = ["name"] ∧
    (postUsersV2 1 wsNamePayload 0 Store.empty).1.status = 500 ∧
    (postUsersV2 1 wsNamePayload 0 Store.empty).1.missingList = none ∧
    missingFields noNamePayload = ["name"] ∧
    (postUsersV2 1 noNamePayload 0 Store.empty).1.status = 400 ∧
    (postUsersV2 1 noNamePayload 0 Store.empty).1.missingList = none := by
  decide

/-- C1 (amended): variant 1's submit returns a 400 whose `missing` list is
exactly the required fields that are absent or whitespace-only — no more,
no fewer — with no store write; variant 2 rejects (with a 400 listing only
the full required set, no missing list, and no store write) exactly the
payloads with an absent or empty-string required field. -/
theorem c1_missing_list_exact (p : Payload) (now : Nat) (s : Store)
    (h : 0 < (missingFields p).length) :
    (postUsersV1 1 p now s).1 =
      SubmitResponse.validationFailed requiredFieldNames (missingFields p) ∧
    (postUsersV1 1 p now s).2 = s ∧
    (postUsersV1 1 p now s).1.status = 400 ∧
    ("name" ∈ missingFields p ↔
      (p.name = none ∨ ∃ str, p.name = some str ∧ jsTrim str = "")) ∧
    ("email" ∈ missingFields p ↔
      (p.email = none ∨ ∃ str, p.email = some str ∧ jsTrim str = "")) ∧
    ("phone" ∈ missingFields p ↔
      (p.phone = none ∨ ∃ str, p.phone = some str ∧ jsTrim str = "")) ∧
    ("school" ∈ missingFields p ↔
      (p.school = none ∨ ∃ str, p.school = some str ∧ jsTrim str = "")) ∧
    ("language" ∈ missingFields p ↔
      (p.language = none ∨ ∃ str, p.language = some str ∧ jsTrim str = "")) ∧
    (∀ f, f ∈ missingFields p → f ∈ requiredFieldNames) ∧
    (anyRequiredFalsy p = true →
      (postUsersV2 1 p now s).1 =
        SubmitResponse.validationFailedNoList requiredFieldNames ∧
      (postUsersV2 1 p now s).2 = s ∧
      (postUsersV2 1 p now s).1.missingList = none) := by
  refine ⟨?_, ?_, ?_, ?_, ?_, ?_, ?_, ?_, ?_, ?_⟩
  · simp [postUsersV1, h]
  · simp [postUsersV1, h]
  · simp [postUsersV1, h, SubmitResponse.status]
  · rw [show (p.name = none ∨ ∃ str, p.name = some str ∧ jsTrim str = "") ↔
        isMissingValue p.name = true from (isMissingValue_true_iff p.name).symm]
    simp [missingFields, requiredEntries, List.mem_filter]
  · rw [show (p.email = none ∨ ∃ str, p.email = some str ∧ jsTrim str = "") ↔
        isMissingValue p.email = true from (isMissingValue_true_iff p.email).symm]
    simp [missingFields, requiredEntries, List.mem_filter]
  · rw [show (p.phone = none ∨ ∃ str, p.phone = some str ∧ jsTrim str = "") ↔
        isMissingValue p.phone = true from (isMissingValue_true_iff p.phone).symm]
    simp [missingFields, requiredEntries, List.mem_filter]
  · rw [show (p.school = none ∨ ∃ str, p.school = some str ∧ jsTrim str = "") ↔
        isMissingValue p.school = true from (isMissingValue_true_iff p.school).symm]
    simp [missingFields, requiredEntries, List.mem_filter]
  · rw [show (p.language = none ∨ ∃ str, p.language = some str ∧ jsTrim str = "") ↔
        isMissingValue p.language = true from
        (isMissingValue_true_iff p.language).symm]
    simp [missingFields, requiredEntries, List.mem_filter]
  · intro f hf
    simp [missingFields, requiredEntries, List.mem_filter] at hf
    simp [requiredFieldNames]
    rcases hf with ⟨v, hmem, _⟩
    rcases hmem with h2 | h2 | h2 | h2 | h2 <;> simp [h2.1]
  · intro h2
    refine ⟨?_, ?_, ?_⟩ <;> simp [postUsersV2, h2, SubmitResponse.missingList]

/-- Payload missing `name` (absent) and `school` (whitespace-only). -/
def twoMissingPayload : Payload :=
  { name := none, email := some "e@x", phone := some "1",
    school := some "  ", language := some "L" }

/-- C1 witness: the amended theorem applied at a payload missing `name` and
`school`. -/
theorem c1_missing_list_exact_witness :
    0 < (missingFields twoMissingPayload).length ∧
    ((postUsersV1 1 twoMissingPayload 0 Store.empty).1 =
      SubmitResponse.validationFailed requiredFieldNames
        (missingFields twoMissingPayload) ∧
    (postUsersV1 1 twoMissingPayload 0 Store.empty).2 = Store.empty ∧
    (postUsersV1 1 twoMissingPayload 0 Store.empty).1.status = 400 ∧
    ("name" ∈ missingFields twoMissingPayload ↔
      (twoMissingPayload.name = none ∨
        ∃ str, twoMissingPayload.name = some str ∧ jsTrim str = "")) ∧
    ("email" ∈ missingFields twoMissingPayload ↔
      (twoMissingPayload.email = none ∨
        ∃ str, twoMissingPayload.email = some str ∧ jsTrim str = "")) ∧
    ("phone" ∈ missingFields twoMissingPayload ↔
      (twoMissingPayload.phone = none ∨
        ∃ str, twoMissingPayload.phone = some str ∧ jsTrim str = "")) ∧
    ("school" ∈ missingFields twoMissingPayload ↔
      (twoMissingPayload.school = none ∨
        ∃ str, twoMissingPayload.school = some str ∧ jsTrim str = "")) ∧
    ("language" ∈ missingFields twoMissingPayload ↔
      (twoMissingPayload.language = none ∨
        ∃ str, twoMissingPayload.language = some str ∧ jsTrim str = "")) ∧
    (∀ f, f ∈ missingFields twoMissingPayload → f ∈ requiredFieldNames) ∧
    (anyRequiredFalsy twoMissingPayload = true →
      (postUsersV2 1 twoMissingPayload 0 Store.empty).1 =
        SubmitResponse.validationFailedNoList requiredFieldNames ∧
      (postUsersV2 1 twoMissingPayload 0 Store.empty).2 = Store.empty ∧
      (postUsersV2 1 twoMissingPayload 0 Store.empty).1.missingList = none)) :=
  ⟨by decide, c1_missing_list_exact twoMissingPayload 0 Store.empty (by decide)⟩

/-- C2: whenever the connection readyState is not 1 (Connected), submit
(both variants), list and admin-list each return a 503 and leave the store —
records and operation counters alike — untouched. -/
theorem c2_unavailable_when_not_connected (rs : Nat) (p : Payload) (now : Nat)
    (s : Store) (h : rs ≠ 1) :
    (postUsersV1 rs p now s).1.status = 503 ∧ (postUsersV1 rs p now s).2 = s ∧
    (postUsersV2 rs p now s).1.status = 503 ∧ (postUsersV2 rs p now s).2 = s ∧
    (getUsersHandler rs s).1.status = 503 ∧ (getUsersHandler rs s).2 = s ∧
    (getAdminUsersHandler rs s).1.status = 503 ∧
    (getAdminUsersHandler rs s).2 = s := by
  simp [postUsersV1, postUsersV2, getUsersHandler, getAdminUsersHandler, h,
    SubmitResponse.status, ListResponse.status]

/-- C2 witness: readyState 0 (Disconnected) on the empty store. -/
theorem c2_unavailable_witness :
    (0 : Nat) ≠ 1 ∧
    ((postUsersV1 0 {} 0 Store.empty).1.status = 503 ∧
    (postUsersV1 0 {} 0 Store.empty).2 = Store.empty ∧
    (postUsersV2 0 {} 0 Store.empty).1.status = 503 ∧
    (postUsersV2 0 {} 0 Store.empty).2 = Store.empty ∧
    (getUsersHandler 0 Store.empty).1.status = 503 ∧
    (getUsersHandler 0 Store.empty).2 = Store.empty ∧
    (getAdminUsersHandler 0 Store.empty).1.status = 503 ∧
    (getAdminUsersHandler 0 Store.empty).2 = Store.empty) :=
  ⟨by decide, c2_unavailable_when_not_connected 0 {} 0 Store.empty (by decide)⟩

/-- C3: a valid submit persists exactly one new record whose string fields
are the inputs trimmed (email additionally lower-cased), the 201 response
reports that record, and a subsequent list contains it. -/
theorem c3_normalized_roundtrip (p : Payload) (now : Nat) (s : Store)
    (nm em ph sc lg : String)
    (hn : p.name = some nm) (he : p.email = some em) (hp : p.phone = some ph)
    (hs : p.school = some sc) (hl : p.language = some lg)
    (hv : missingFields p = []) :
    ∃ r : UserRecord,
      (postUsersV1 1 p now s).2.records = s.records ++ [r] ∧
      r.name = jsTrim nm ∧ r.email = jsToLower (jsTrim em) ∧
      r.phone = jsTrim ph ∧ r.school = jsTrim sc ∧ r.language = jsTrim lg ∧
      (postUsersV1 1 p now s).1 = SubmitResponse.created r.id r.score ∧
      r ∈ (getUsersHandler 1 (postUsersV1 1 p now s).2).1.users := by
  refine ⟨(mkDraft p now).withId s.records.length, ?_, ?_, ?_, ?_, ?_, ?_, ?_, ?_⟩
  · rw [postUsersV1_valid p now s hv]
  · simp [mkDraft, UserDraft.withId, hn]
  · simp [mkDraft, UserDraft.withId, he]
  · simp [mkDraft, UserDraft.withId, hp]
  · simp [mkDraft, UserDraft.withId, hs]
  · simp [mkDraft, UserDraft.withId, hl]
  · rw [postUsersV1_valid p now s hv]
    rfl
  · rw [postUsersV1_valid p now s hv]
    simp [getUsersHandler, Store.findAllSorted, ListResponse.users]

/-- A fully valid payload with untrimmed fields and a mixed-case email. -/
def validPayload : Payload :=
  { name := some " Ann ", email := some " A@B.c ", phone := some " 99 ",
    school := some " S1 ", language := some " En ",
    answers := some ["A", "B"], score := some "75" }

/-- C3 witness: the normalisation theorem applied at `validPayload`. -/
theorem c3_normalized_roundtrip_witness :
    validPayload.name = some " Ann " ∧ validPayload.email = some " A@B.c " ∧
    validPayload.phone = some " 99 " ∧ validPayload.school = some " S1 " ∧
    validPayload.language = some " En " ∧ missingFields validPayload = [] ∧
    (∃ r : UserRecord,
      (postUsersV1 1 validPayload 0 Store.empty).2.records =
        Store.empty.records ++ [r] ∧
      r.name = jsTrim " Ann " ∧ r.email = jsToLower (jsTrim " A@B.c ") ∧
      r.phone = jsTrim " 99 " ∧ r.school = jsTrim " S1 " ∧
      r.language = jsTrim " En " ∧
      (postUsersV1 1 validPayload 0 Store.empty).1 =
        SubmitResponse.created r.id r.score ∧
      r ∈ (getUsersHandler 1 (postUsersV1 1 validPayload 0 Store.empty).2).1.users) :=
  ⟨rfl, rfl, rfl, rfl, rfl, by decide,
    c3_normalized_roundtrip validPayload 0 Store.empty
      " Ann " " A@B.c " " 99 " " S1 " " En " rfl rfl rfl rfl rfl (by decide)⟩

/-- C4: on a valid submit the persisted score is `parseInt`'s best-effort
parse of the supplied value; an absent or unparsable score (such as "abc")
silently becomes 0 and the request still succeeds with a 201. -/
theorem c4_score_coercion (p : Payload) (now : Nat) (s : Store)
    (hv : missingFields p = []) :
    (postUsersV1 1 p now s).1.status = 201 ∧
    (∀ str n, p.score = some str → jsParseInt str = some n →
      ∃ r : UserRecord,
        (postUsersV1 1 p now s).2.records = s.records ++ [r] ∧ r.score = n ∧
        (postUsersV1 1 p now s).1 =
          SubmitResponse.created s.records.length n) ∧
    ((p.score = none ∨ p.score = some "abc") →
      ∃ r : UserRecord,
        (postUsersV1 1 p now s).2.records = s.records ++ [r] ∧ r.score = 0 ∧
        (postUsersV1 1 p now s).1 =
          SubmitResponse.created s.records.length 0) ∧
    jsParseInt "abc" = none := by
  rw [postUsersV1_valid p now s hv]
  refine ⟨rfl, ?_, ?_, by decide⟩
  · intro str n h1 h2
    exact ⟨_, rfl, by simp [mkDraft, UserDraft.withId, jsScore, h1, h2],
      by simp [jsScore, h1, h2]⟩
  · rintro (h1 | h1)
    · exact ⟨_, rfl, by simp [mkDraft, UserDraft.withId, jsScore, h1],
        by simp [jsScore, h1]⟩
    · exact ⟨_, rfl, by simp [mkDraft, UserDraft.withId, jsScore, h1]; decide,
        by simp [jsScore, h1]; decide⟩

/-- A valid payload whose score is the unparsable string "abc". -/
def abcScorePayload : Payload :=
  { name := some "N", email := some "E@x", phone := some "1",
    school := some "S", language := some "L", score := some "abc" }

/-- C4 witness: the coercion theorem applied at the "abc"-score payload. -/
theorem c4_score_coercion_witness :
    missingFields abcScorePayload = [] ∧
    ((postUsersV1 1 abcScorePayload 0 Store.empty).1.status = 201 ∧
    (∀ str n, abcScorePayload.score = some str → jsParseInt str = some n →
      ∃ r : UserRecord,
        (postUsersV1 1 abcScorePayload 0 Store.empty).2.records =
          Store.empty.records ++ [r] ∧ r.score = n ∧
        (postUsersV1 1 abcScorePayload 0 Store.empty).1 =
          SubmitResponse.created Store.empty.records.length n) ∧
    ((abcScorePayload.score = none ∨ abcScorePayload.score = some "abc") →
      ∃ r : UserRecord,
        (postUsersV1 1 abcScorePayload 0 Store.empty).2.records =
          Store.empty.records ++ [r] ∧ r.score = 0 ∧
        (postUsersV1 1 abcScorePayload 0 Store.empty).1 =
          SubmitResponse.created Store.empty.records.length 0) ∧
    jsParseInt "abc" = none) :=
  ⟨by decide, c4_score_coercion abcScorePayload 0 Store.empty (by decide)⟩

/-- C5: the list query returns a permutation of every persisted record,
sorted by `submittedAt` descending, with the count equal to the record
count; and on a store holding R1, R2, R3 inserted in that order with
increasing (hence distinct) timestamps it returns exactly [R3, R2, R1]. -/
theorem c5_list_sorted_desc (s : Store) (r1 r2 r3 : UserRecord) (ic fc : Nat)
    (h12 : r1.submittedAt < r2.submittedAt)
    (h23 : r2.submittedAt < r3.submittedAt) :
    (s.findAllSorted.1.Perm s.records ∧
      List.Sorted bySubmittedAtDesc s.findAllSorted.1 ∧
      s.findAllSorted.1.length = s.records.length ∧
      (getUsersHandler 1 s).1 =
        ListResponse.ok s.findAllSorted.1.length s.findAllSorted.1) ∧
    (Store.mk [r1, r2, r3] ic fc).findAllSorted.1 = [r3, r2, r1] := by
  have n13 : ¬ bySubmittedAtDesc r1 r3 := Nat.not_le.2 (Nat.lt_trans h12 h23)
  have n12 : ¬ bySubmittedAtDesc r1 r2 := Nat.not_le.2 h12
  have n23 : ¬ bySubmittedAtDesc r2 r3 := Nat.not_le.2 h23
  refine ⟨⟨List.perm_insertionSort bySubmittedAtDesc s.records,
    List.sorted_insertionSort bySubmittedAtDesc s.records,
    (List.perm_insertionSort bySubmittedAtDesc s.records).length_eq, rfl⟩, ?_⟩
  simp [Store.findAllSorted, List.insertionSort, List.orderedInsert, n12, n13, n23]

/-- Record with timestamp 1. -/
def recT1 : UserRecord := ⟨0, "a", "a", "a", "a", "a", [], 0, 1⟩

/-- Record with timestamp 2. -/
def recT2 : UserRecord := ⟨1, "b", "b", "b", "b", "b", [], 0, 2⟩

/-- Record with timestamp 3. -/
def recT3 : UserRecord := ⟨2, "c", "c", "c", "c", "c", [], 0, 3⟩

/-- C5 witness: the ordering theorem applied at three concrete records with
timestamps 1 < 2 < 3. -/
theorem c5_list_sorted_desc_witness :
    recT1.submittedAt < recT2.submittedAt ∧
    recT2.submittedAt < recT3.submittedAt ∧
    (((Store.mk [recT1, recT2, recT3] 3 0).findAllSorted.1.Perm
        (Store.mk [recT1, recT2, recT3] 3 0).records ∧
      List.Sorted bySubmittedAtDesc
        (Store.mk [recT1, recT2, recT3] 3 0).findAllSorted.1 ∧
      (Store.mk [recT1, recT2, recT3] 3 0).findAllSorted.1.length =
        (Store.mk [recT1, recT2, recT3] 3 0).records.length ∧
      (getUsersHandler 1 (Store.mk [recT1, recT2, recT3] 3 0)).1 =
        ListResponse.ok (Store.mk [recT1, recT2, recT3] 3 0).findAllSorted.1.length
          (Store.mk [recT1, recT2, recT3] 3 0).findAllSorted.1) ∧
    (Store.mk [recT1, recT2, recT3] 0 0).findAllSorted.1 =
      [recT3, recT2, recT1]) :=
  ⟨by decide, by decide,
    c5_list_sorted_desc (Store.mk [recT1, recT2, recT3] 3 0)
      recT1 recT2 recT3 0 0 (by decide) (by decide)⟩

/-- C6 counterexample: with no connection string configured, `connectDB`
does not let the configuration error escape — in both variants the throw is
inside the try block, so the catch schedules a retry (5s in variant 1, 15s
in variant 2) exactly as for any other failure. -/
theorem c6_missing_uri_retries :
    (∀ e : JsError,
      connectDBv1 ConnectEnv.missingUri ≠ ConnectOutcome.raised e) ∧
    connectDBv1 ConnectEnv.missingUri = ConnectOutcome.retryScheduled 5000 ∧
    connectDBv2 ConnectEnv.missingUri = ConnectOutcome.retryScheduled 15000 := by
  refine ⟨fun e h => ?_, rfl, rfl⟩
  exact ConnectOutcome.noConfusion h

/-- C6 (amended): the missing-connection-string condition is raised as an
error inside the try block but is caught like every other connection
failure; for every non-success environment `connectDB` schedules a retry
(5s in variant 1, 15s in variant 2) and never lets any error escape —
there is no fatal, unretried condition. -/
theorem c6_retry_always (env : ConnectEnv)
    (h : env ≠ ConnectEnv.connectSuccess) :
    (∃ e, connectTryBodyV1 env = Except.error e) ∧
    connectDBv1 env = ConnectOutcome.retryScheduled 5000 ∧
    connectDBv2 env = ConnectOutcome.retryScheduled 15000 ∧
    (∀ e, connectDBv1 env ≠ ConnectOutcome.raised e) ∧
    (∀ e, connectDBv2 env ≠ ConnectOutcome.raised e) ∧
    connectTryBodyV1 ConnectEnv.missingUri =
      Except.error
        (JsError.configError "MONGODB_URI environment variable is not set") := by
  cases env with
  | missingUri =>
    refine ⟨⟨_, rfl⟩, rfl, rfl, fun e h2 => ?_, fun e h2 => ?_, rfl⟩ <;>
      exact ConnectOutcome.noConfusion h2
  | connectFailure =>
    refine ⟨⟨_, rfl⟩, rfl, rfl, fun e h2 => ?_, fun e h2 => ?_, rfl⟩ <;>
      exact ConnectOutcome.noConfusion h2
  | connectSuccess => exact absurd rfl h

/-- C6 witness: the retry theorem applied at the missing-URI environment. -/
theorem c6_retry_always_witness :
    ConnectEnv.missingUri ≠ ConnectEnv.connectSuccess ∧
    ((∃ e, connectTryBodyV1 ConnectEnv.missingUri = Except.error e) ∧
    connectDBv1 ConnectEnv.missingUri = ConnectOutcome.retryScheduled 5000 ∧
    connectDBv2 ConnectEnv.missingUri = ConnectOutcome.retryScheduled 15000 ∧
    (∀ e, connectDBv1 ConnectEnv.missingUri ≠ ConnectOutcome.raised e) ∧
    (∀ e, connectDBv2 ConnectEnv.missingUri ≠ ConnectOutcome.raised e) ∧
    connectTryBodyV1 ConnectEnv.missingUri =
      Except.error
        (JsError.configError "MONGODB_URI environment variable is not set")) :=
  ⟨by decide, c6_retry_always ConnectEnv.missingUri (by decide)⟩

/-- C7: the handler never reads a client-supplied `submittedAt` or `id` —
its entire result is unchanged under any values of those body properties —
and the persisted timestamp is the server clock at creation, in both
variants. -/
theorem c7_submittedAt_server_side (p : Payload) (x1 x2 y1 y2 : Option String)
    (rs now : Nat) (s : Store) :
    postUsersV1 rs { p with clientSubmittedAt := x1, clientId := y1 } now s =
      postUsersV1 rs { p with clientSubmittedAt := x2, clientId := y2 } now s ∧
    postUsersV2 rs { p with clientSubmittedAt := x1, clientId := y1 } now s =
      postUsersV2 rs { p with clientSubmittedAt := x2, clientId := y2 } now s ∧
    (mkDraft p now).submittedAt = now ∧ (mkDraftV2 p now).submittedAt = now :=
  ⟨rfl, rfl, rfl, rfl⟩

/-- C8: on a valid submit the persisted `answers` sequence is exactly the
supplied one when present, and the empty sequence when absent. -/
theorem c8_answers_passthrough (p : Payload) (now : Nat) (s : Store)
    (hv : missingFields p = []) :
    (∀ l, p.answers = some l → ∃ r : UserRecord,
      (postUsersV1 1 p now s).2.records = s.records ++ [r] ∧ r.answers = l) ∧
    (p.answers = none → ∃ r : UserRecord,
      (postUsersV1 1 p now s).2.records = s.records ++ [r] ∧ r.answers = []) := by
  rw [postUsersV1_valid p now s hv]
  constructor
  · intro l h1
    exact ⟨_, rfl, by simp [mkDraft, UserDraft.withId, h1]⟩
  · intro h1
    exact ⟨_, rfl, by simp [mkDraft, UserDraft.withId, h1]⟩

/-- C8 witness: the pass-through theorem applied at `validPayload`, whose
answers are `["A", "B"]`. -/
theorem c8_answers_passthrough_witness :
    missingFields validPayload = [] ∧
    ((∀ l, validPayload.answers = some l → ∃ r : UserRecord,
      (postUsersV1 1 validPayload 0 Store.empty).2.records =
        Store.empty.records ++ [r] ∧ r.answers = l) ∧
    (validPayload.answers = none → ∃ r : UserRecord,
      (postUsersV1 1 validPayload 0 Store.empty).2.records =
        Store.empty.records ++ [r] ∧ r.answers = [])) :=
  ⟨by decide, c8_answers_passthrough validPayload 0 Store.empty (by decide)⟩

/-- The Profile B end-to-end payload of the spec's §8 scenario. -/
def anaPayload : Payload :=
  { name := some "Ana", phone := some "555", language := some "en" }

/-- The record the Profile B scenario persists (server clock 7). -/
def anaRecord : UserRecord :=
  { id := 0, name := "Ana", email := "", phone := "555", school := "",
    language := "en", answers := [], score := 0, submittedAt := 7 }

/-- C9: under Profile B, submitting `{name:"Ana", phone:"555",
language:"en"}` into the empty store yields a 201 carrying a userId and
`data.name = "Ana"`, and a subsequent list returns count 1 with that
record's school equal to the empty string. -/
theorem c9_profileB_scenario :
    (postUsersProfileB 1 anaPayload 7 Store.empty).1 =
      SubmitResponseB.created 0 anaRecord ∧
    ((postUsersProfileB 1 anaPayload 7 Store.empty).1.status = 201) ∧
    anaRecord.name = "Ana" ∧
    (getUsersHandler 1 (postUsersProfileB 1 anaPayload 7 Store.empty).2).1 =
      ListResponse.ok 1 [anaRecord] ∧
    anaRecord.school = "" := by
  decide

/-- C10: the submit handlers read none of the payload properties outside
`name, email, phone, school, language, answers, score`: the full result of
either variant, and the constructed document, are unchanged under any
value of the extra properties. -/
theorem c10_extra_fields_ignored (p : Payload) (e1 e2 : List (String × String))
    (rs now : Nat) (s : Store) :
    postUsersV1 rs { p with extra := e1 } now s =
      postUsersV1 rs { p with extra := e2 } now s ∧
    postUsersV2 rs { p with extra := e1 } now s =
      postUsersV2 rs { p with extra := e2 } now s ∧
    mkDraft { p with extra := e1 } now = mkDraft p now ∧
    mkDraftV2 { p with extra := e1 } now = mkDraftV2 p now :=
  ⟨rfl, rfl, rfl, rfl⟩
